import Mathlib

/-!
Verification development for the Heimdall signaling relay and its clients.

The definitions below are a shallow embedding of:
  * `src/server/signaling.js` — the relay server's payload validator and
    per-message broadcast handler (JS dynamic values are modelled by the
    `JSValue` inductive, with JS numbers as rationals and `undefined`
    rendered as `Option.none` at field-lookup sites);
  * `src/frontend/src/components/WebRTCHandler.jsx` — the client connection
    state machine (`HandlerState`) and the handshake-signal relay
    (`PeerState`), with I/O rendered as explicit effect lists;
  * the capture loops of the object-detection component
    (`src/unnamed/part_004`) as per-tick action lists.
-/

namespace Heimdall

/-- A parsed JSON value as the JS code sees it.  JS numbers are modelled as
rationals (`NaN`/`Infinity` cannot arise from `JSON.parse` of the payloads at
issue).  `undefined` is not a `JSValue`: absent object fields surface as
`Option.none` from `getField`. -/
inductive JSValue where
  | null
  | bool (b : Bool)
  | num (q : ℚ)
  | str (s : String)
  | arr (xs : List JSValue)
  | obj (fields : List (String × JSValue))

/-- First-match property lookup on an object's field list. -/
def lookupField : List (String × JSValue) → String → Option JSValue
  | [], _ => none
  | (k', v) :: rest, k => if k' = k then some v else lookupField rest k

/-- `v.k` in JS: `none` means `undefined` (also for named props of arrays and
for primitives, which is what the source code ever looks at). -/
def JSValue.getField : JSValue → String → Option JSValue
  | .obj fs, k => lookupField fs k
  | _, _ => none

/-- `v && typeof v === 'object'`: a truthy value of `typeof` "object", i.e. a
plain object or an array (`null` is excluded by truthiness). -/
def JSValue.isObjLike : JSValue → Bool
  | .obj _ => true
  | .arr _ => true
  | _ => false

/-- JS truthiness of a defined value. -/
def JSValue.truthy : JSValue → Bool
  | .null => false
  | .bool b => b
  | .num q => q != 0
  | .str s => s != ""
  | .arr _ => true
  | .obj _ => true

/-- Truthiness where `none` stands for `undefined`. -/
def truthyOpt : Option JSValue → Bool
  | some v => v.truthy
  | none => false

/-- JS strict equality `===` as the source uses it: value comparison on
primitives; object/array operands in the source are always distinct fresh
references (results of separate `JSON.parse` calls), hence never `===`. -/
def strictEq : JSValue → JSValue → Bool
  | .null, .null => true
  | .bool a, .bool b => a == b
  | .num a, .num b => a == b
  | .str a, .str b => a == b
  | _, _ => false

/-- Strict equality lifted to possibly-`undefined` operands. -/
def strictEqOpt : Option JSValue → Option JSValue → Bool
  | some a, some b => strictEq a b
  | none, none => true
  | _, _ => false

/-- `data.type === s` for a string literal `s`. -/
def isTypeStr (v : JSValue) (s : String) : Bool :=
  match v.getField "type" with
  | some (.str t) => t == s
  | _ => false

/-- Field read as a JS number (`typeof v.k === 'number'`). -/
def numField (d : JSValue) (k : String) : Option ℚ :=
  match d.getField k with
  | some (.num q) => some q
  | _ => none

/-- Field read as a JS string (`typeof v.k === 'string'`). -/
def isStrField (d : JSValue) (k : String) : Bool :=
  match d.getField k with
  | some (.str _) => true
  | _ => false

/-! ### Payload Validator (`validateDetectionPayload`, signaling.js lines 51-69) -/

/-- Result of the validator: `{ ok: true }` or `{ ok: false, reason }`. -/
inductive VResult where
  | ok
  | rejected (reason : String)
deriving DecidableEq

/-- Rejection-message prefix `detection[i]`. -/
def detMsg (i : Nat) (suffix : String) : String :=
  "detection[" ++ toString i ++ "]" ++ suffix

/-- The `for (const k of keys)` loop over the four box coordinates: first key
that is not a number in [0,1] yields the rejection message. -/
def checkCoords (d : JSValue) (i : Nat) : List String → Option String
  | [] => none
  | k :: ks =>
    match numField d k with
    | none => some (detMsg i ("." ++ k ++ " must be number in [0,1]"))
    | some q =>
      if q < 0 ∨ 1 < q then some (detMsg i ("." ++ k ++ " must be number in [0,1]"))
      else checkCoords d i ks

/-- The box-coordinate key list `['xmin','ymin','xmax','ymax']`. -/
def boxKeys : List String := ["xmin", "ymin", "xmax", "ymax"]

/-- Validation of one element of `payload.detections` (loop body of the
validator); `none` means the element passed. -/
def validateOne (d : JSValue) (i : Nat) : Option String :=
  if d.isObjLike = false then some (detMsg i " must be an object")
  else if isStrField d "label" = false then some (detMsg i ".label must be a string")
  else
    match numField d "score" with
    | none => some (detMsg i ".score must be a number in [0,1]")
    | some q =>
      if q < 0 ∨ 1 < q then some (detMsg i ".score must be a number in [0,1]")
      else
        match checkCoords d i boxKeys with
        | some r => some r
        | none =>
          if (numField d "xmin").getD 0 < (numField d "xmax").getD 0 ∧
             (numField d "ymin").getD 0 < (numField d "ymax").getD 0 then none
          else some (detMsg i " box coordinates invalid (xmin<xmax and ymin<ymax required)")

/-- The indexed `for` loop over `payload.detections`. -/
def validateDetections : List JSValue → Nat → VResult
  | [], _ => .ok
  | d :: rest, i =>
    match validateOne d i with
    | some r => .rejected r
    | none => validateDetections rest (i + 1)

/-- `validateDetectionPayload` from `src/server/signaling.js`. -/
def validateDetectionPayload (payload : JSValue) : VResult :=
  if payload.isObjLike = false then .rejected "payload must be an object"
  else if (payload.getField "frame_id").isNone then .rejected "missing frame_id"
  else if (numField payload "capture_ts").isNone then
    .rejected "capture_ts must be a number (ms since epoch)"
  else if (numField payload "inference_ts").isNone then
    .rejected "inference_ts must be a number (ms since epoch)"
  else
    match payload.getField "detections" with
    | some (.arr ds) => validateDetections ds 0
    | _ => .rejected "detections must be an array"

/-! ### Relay Server message handler (`ws.on('message')`, signaling.js lines 84-137) -/

/-- `data.payload !== undefined ? data.payload : data`. -/
def effectivePayload (data : JSValue) : JSValue :=
  match data.getField "payload" with
  | some p => p
  | none => data

/-- Insert-or-overwrite of one key, keeping first-occurrence position, as
`Object.assign({}, p, { recv_ts })` behaves on a plain object's field list. -/
def setKey (fs : List (String × JSValue)) (k : String) (v : JSValue) : List (String × JSValue) :=
  if (fs.map Prod.fst).contains k then
    fs.map (fun e => if e.1 = k then (e.1, v) else e)
  else fs ++ [(k, v)]

/-- `Object.assign({}, payload, { recv_ts: Date.now() })`: a shallow copy with
the server arrival timestamp added.  On an array source the own enumerable
properties are its indices, yielding a plain object of index keys. -/
def stampRecv (p : JSValue) (now : ℚ) : JSValue :=
  match p with
  | .obj fs => .obj (setKey fs "recv_ts" (.num now))
  | .arr xs =>
      .obj (setKey ((List.range xs.length).zip xs |>.map fun e => (toString e.1, e.2)) "recv_ts" (.num now))
  | _ => p

/-- The `forwarded` envelope built in the broadcast loop: `type` copied from
the inbound data (omitted by `JSON.stringify` when absent), `from` set to the
sender's server-assigned id, `payload` the effective payload, stamped with
`recv_ts` for detection messages whose payload is a truthy object.  `now` is
the server clock at relay time. -/
def forwardedEnvelope (peerId : String) (data : JSValue) (now : ℚ) : JSValue :=
  let p := effectivePayload data
  let p' := if isTypeStr data "detection" ∧ p.isObjLike = true then stampRecv p now else p
  let typeFields : List (String × JSValue) :=
    match data.getField "type" with
    | some t => [("type", t)]
    | none => []
  .obj (typeFields ++ [("from", .str peerId), ("payload", p')])

/-- The `error` envelope unicast to the sender of an invalid detection. -/
def errorEnvelope (reason : String) : JSValue :=
  .obj [("type", .str "error"), ("code", .str "invalid_detection"), ("reason", .str reason)]

/-- The registry (`peers : Map`) in iteration order; the `Bool` is
`peer.readyState === WebSocket.OPEN`. -/
abbrev Registry := List (String × Bool)

/-- The `peers.forEach` broadcast loop: deliver `env` to every registered peer
other than the sender whose socket is open, in registry order. -/
def broadcastDeliveries (peers : Registry) (sender : String) (env : JSValue) :
    List (String × JSValue) :=
  (peers.filter fun p => decide (p.1 ≠ sender) && p.2).map fun p => (p.1, env)

/-- The body of `ws.on('message')` for a message that parsed, as the list of
(recipient, envelope) sends it performs: an invalid detection is answered with
an error envelope to the sender only; everything else is broadcast. -/
def handleParsed (peers : Registry) (sender : String) (data : JSValue) (now : ℚ) :
    List (String × JSValue) :=
  if isTypeStr data "detection" then
    match validateDetectionPayload (effectivePayload data) with
    | .rejected r => [(sender, errorEnvelope r)]
    | .ok => broadcastDeliveries peers sender (forwardedEnvelope sender data now)
  else broadcastDeliveries peers sender (forwardedEnvelope sender data now)

/-! ### Connection accept (`wss.on('connection')`, signaling.js lines 71-76)

The socket handle is modelled by a numeric tag; `token` is the value produced
by `Math.random().toString(36).slice(2)` — an input to the code, which
registers it with no uniqueness check (`peers.set(peerId, ws)`). -/

/-- `Map.prototype.set`: overwrite in place if the key exists, else append. -/
def mapSet (m : List (String × Nat)) (k : String) (v : Nat) : List (String × Nat) :=
  if (m.map Prod.fst).contains k then
    m.map (fun e => if e.1 = k then (e.1, v) else e)
  else m ++ [(k, v)]

/-- Registration step of the connection handler: `peers.set(peerId, ws)` with
`peerId` the token drawn from the random source. -/
def acceptConn (m : List (String × Nat)) (token : String) (sock : Nat) : List (String × Nat) :=
  mapSet m token sock

/-! ### Client handshake-signal relay (WebRTCHandler.jsx: `handleMessage` and
`createPeer`)

Only the fields the signal path reads are modelled; calling into the
peer-link object is the `applySignal` effect. -/

/-- The handler fields the signal path touches.  `clientId` is `some .null`
at construction (`this.clientId = null`); `peer` records whether the
peer-link object exists; `pendingSignal` is `this._pendingSignal`
(`none` for unset/nulled). -/
structure PeerState where
  clientId : Option JSValue := some .null
  peer : Bool := false
  pendingSignal : Option JSValue := none

/-- Observable calls into the peer-link object. -/
inductive PEffect where
  | applySignal (v : JSValue)

/-- `createPeer`: no-op when the peer-link object already exists; otherwise
construct it and, if a truthy pending signal is stored, apply it and clear
the buffer. -/
def createPeer (st : PeerState) : PeerState × List PEffect :=
  if st.peer then (st, [])
  else
    let st' := { st with peer := true }
    match st.pendingSignal with
    | some p =>
        if p.truthy then ({ st' with pendingSignal := none }, [.applySignal p])
        else (st', [])
    | none => (st', [])

/-- The triple unwrap loop of the `signal` branch:
`for (let i = 0; i < 3; i++) if (incoming && typeof incoming === 'object' &&
incoming.payload !== undefined) incoming = incoming.payload`. -/
def unwrapOnce (o : Option JSValue) : Option JSValue :=
  match o with
  | some v =>
      if v.isObjLike then
        match v.getField "payload" with
        | some p => some p
        | none => o
      else o
  | none => none

/-- Three rounds of unwrapping applied to `message.payload ?? message.data`. -/
def unwrapSignal (o : Option JSValue) : Option JSValue :=
  unwrapOnce (unwrapOnce (unwrapOnce o))

/-- `incoming && typeof incoming === 'object' && (incoming.sdp !== undefined ||
incoming.type !== undefined || incoming.candidate !== undefined ||
incoming.renegotiate !== undefined)`. -/
def isValidSignal (o : Option JSValue) : Bool :=
  match o with
  | some v =>
      v.isObjLike &&
        ((v.getField "sdp").isSome || (v.getField "type").isSome ||
         (v.getField "candidate").isSome || (v.getField "renegotiate").isSome)
  | none => false

/-- `handleMessage` restricted to the state and effects the claims concern:
the `id` branch stores the assigned id and calls `createPeer`; the `signal`
branch unwraps, discards falsy payloads, validates-and-applies when the peer
exists, and buffers (last one wins) when it does not.  All other branches
touch neither this state nor the peer-link object. -/
def clientHandleMessage (st : PeerState) (message : JSValue) : PeerState × List PEffect :=
  if isTypeStr message "id" then
    createPeer { st with clientId := message.getField "id" }
  else if isTypeStr message "signal" then
    if strictEqOpt (message.getField "from") st.clientId then (st, [])
    else
      let incoming0 :=
        match message.getField "payload" with
        | some p => some p
        | none => message.getField "data"
      let incoming := unwrapSignal incoming0
      if truthyOpt incoming = false then (st, [])
      else if st.peer then
        if isValidSignal incoming then (st, [.applySignal (incoming.getD .null)])
        else (st, [])
      else ({ st with pendingSignal := incoming }, [])
  else (st, [])

/-! ### Client connection lifecycle (WebRTCHandler.jsx: `connect`,
`establishConnection`, `handleDisconnect`, `disconnect`, `onopen`) -/

/-- Socket-level effects of the lifecycle operations. -/
inductive WEffect where
  | openSocket (url : Option String)
  | closeSocket
  | destroyPeer
  | scheduleReconnect (delayMs : Nat)
deriving DecidableEq

/-- The constructor-initialised lifecycle fields of `WebRTCHandler`.
`ws` records whether a socket object is held; `pingActive` whether the
keepalive interval is running. -/
structure HandlerState where
  wsUrl : Option String := none
  ws : Bool := false
  connected : Bool := false
  reconnectAttempts : Nat := 0
  maxReconnectAttempts : Nat := 5
  reconnectDelay : Nat := 2000
  peer : Bool := false
  pingActive : Bool := false
deriving DecidableEq

/-- `new WebRTCHandler(...)`. -/
def initialHandler : HandlerState := {}

/-- `establishConnection`: bail out when already connected or the attempt
counter has reached the maximum; otherwise construct a socket at `wsUrl`. -/
def establishConnection (s : HandlerState) : HandlerState × List WEffect :=
  if s.connected ∨ s.maxReconnectAttempts ≤ s.reconnectAttempts then (s, [])
  else ({ s with ws := true }, [.openSocket s.wsUrl])

/-- `connect(wsUrl)`: remember the url, close any held socket, then
`establishConnection`. -/
def connect (s : HandlerState) (url : String) : HandlerState × List WEffect :=
  let s1 := { s with wsUrl := some url }
  let (s2, e2) : HandlerState × List WEffect :=
    if s1.ws then ({ s1 with ws := false }, [.closeSocket]) else (s1, [])
  let (s3, e3) := establishConnection s2
  (s3, e2 ++ e3)

/-- The socket `onopen` callback: mark connected, zero the attempt counter,
start the keepalive ping (the role declaration it also sends is outside the
modelled state). -/
def onOpen (s : HandlerState) : HandlerState :=
  { s with connected := true, reconnectAttempts := 0, pingActive := true }

/-- `handleDisconnect` (invoked from both `onerror` and `onclose`): return at
once unless the connected flag is set; otherwise clear it, bump the counter,
stop the ping, and — while under the maximum — schedule `establishConnection`
after `reconnectDelay * 2 ** (reconnectAttempts - 1)` ms. -/
def handleDisconnect (s : HandlerState) : HandlerState × List WEffect :=
  if s.connected = false then (s, [])
  else
    let s' := { s with connected := false, reconnectAttempts := s.reconnectAttempts + 1,
                       pingActive := false }
    if s'.reconnectAttempts < s'.maxReconnectAttempts then
      (s', [.scheduleReconnect (s'.reconnectDelay * 2 ^ (s'.reconnectAttempts - 1))])
    else (s', [])

/-- `disconnect()`: clear the connected flag, pin the attempt counter at the
maximum, destroy the peer-link object and close the socket when held. -/
def disconnect (s : HandlerState) : HandlerState × List WEffect :=
  let s1 := { s with connected := false, reconnectAttempts := s.maxReconnectAttempts }
  let (s2, e2) : HandlerState × List WEffect :=
    if s1.peer then ({ s1 with peer := false }, [.destroyPeer]) else (s1, [])
  let (s3, e3) : HandlerState × List WEffect :=
    if s2.ws then ({ s2 with ws := false }, [.closeSocket]) else (s2, [])
  (s3, e2 ++ e3)

/-- `n` firings of a pending backoff timer (each one calls
`establishConnection`), with the effects accumulated. -/
def runTimers (s : HandlerState) : Nat → HandlerState × List WEffect
  | 0 => (s, [])
  | n + 1 =>
      let (s1, e1) := establishConnection s
      let (s2, e2) := runTimers s1 n
      (s2, e1 ++ e2)

/-! ### Capture/Backpressure loops (src/unnamed/part_004)

One invocation of `sendFrame` — the server-inference capture tick — as a
function of the flags it reads, returning the ordered list of externally
visible actions and the new `inflight` flag.  `capture` is the offscreen
canvas draw + JPEG encode, `post` the `fetch` to the inference endpoint,
`scheduleNext` a `setTimeout(sendFrame, captureInterval)` (the `finally`
block schedules one on every path that enters the `try`). -/

/-- Externally visible actions of one capture tick. -/
inductive CapAction where
  | capture
  | post
  | scheduleNext
deriving DecidableEq

/-- `sendFrame` from the server-inference loop: note that the frame is drawn
and encoded before the `inflight` check, so an in-flight tick still performs
the capture and only skips the send. -/
def sendFrame (stopped videoReady inflight : Bool) : List CapAction × Bool :=
  if stopped then ([], inflight)
  else if videoReady = false then ([.scheduleNext, .scheduleNext], inflight)
  else if inflight then ([.capture, .scheduleNext, .scheduleNext], inflight)
  else ([.capture, .post, .scheduleNext], true)

/-- `sendSingleFrame` from the live-WS loop: capture when the video is ready
and send whenever the live socket is open.  The loop declares an `inflight`
flag but never reads or writes it, so no action here depends on any
outstanding result. -/
def sendSingleFrame (videoReady wsOpen : Bool) : List CapAction :=
  if videoReady = false then []
  else if wsOpen then [.capture, .post]
  else [.capture]

/-! ### Spec-side shape rules for detection payloads (§4.4 of the spec, as a
single conjunction of shape conditions, to be compared with the source
validator's short-circuiting rule chain) -/

/-- A coordinate-like field holds a number in [0,1]. -/
def inUnitB (d : JSValue) (k : String) : Bool :=
  match numField d k with
  | some q => decide (0 ≤ q) && decide (q ≤ 1)
  | none => false

/-- One detection element is well shaped: an object whose label is text,
whose score and four box coordinates are numbers in [0,1], with the box
strictly ordered. -/
def validDetectionB (d : JSValue) : Bool :=
  d.isObjLike && isStrField d "label" && inUnitB d "score" &&
  inUnitB d "xmin" && inUnitB d "ymin" && inUnitB d "xmax" && inUnitB d "ymax" &&
  decide ((numField d "xmin").getD 0 < (numField d "xmax").getD 0) &&
  decide ((numField d "ymin").getD 0 < (numField d "ymax").getD 0)

/-- A detection payload is well shaped: an object with a frame identifier
present, numeric capture and inference timestamps, and a detections array
(possibly empty) of well-shaped elements. -/
def validPayloadB (p : JSValue) : Bool :=
  p.isObjLike && (p.getField "frame_id").isSome &&
  (numField p "capture_ts").isSome && (numField p "inference_ts").isSome &&
  (match p.getField "detections" with
   | some (.arr ds) => ds.all validDetectionB
   | _ => false)

/-! ### Concrete inputs used by witnesses and counterexamples -/

/-- A three-peer registry with all sockets open. -/
def regW : Registry := [("a", true), ("b", true), ("c", true)]

/-- A chat envelope whose sender spoofed `from`. -/
def dataW : JSValue :=
  .obj [("type", .str "chat"), ("from", .str "z"),
        ("payload", .obj [("text", .str "hi")])]

/-- A detection payload whose score 3/2 is out of range. -/
def pBadScore : JSValue :=
  .obj [("frame_id", .num 1), ("capture_ts", .num 2), ("inference_ts", .num 3),
        ("detections", .arr [.obj [("label", .str "person"), ("score", .num (mkRat 3 2)),
          ("xmin", .num 0), ("ymin", .num 0),
          ("xmax", .num (mkRat 1 2)), ("ymax", .num (mkRat 1 2))]])]

/-- A detection envelope wrapping `pBadScore`. -/
def dataBadW : JSValue :=
  .obj [("type", .str "detection"), ("from", .str "z"), ("payload", pBadScore)]

/-- A detection payload whose single detection has the empty string as label
and is otherwise well formed. -/
def pEmptyLabel : JSValue :=
  .obj [("frame_id", .num 1), ("capture_ts", .num 2), ("inference_ts", .num 3),
        ("detections", .arr [.obj [("label", .str ""), ("score", .num (mkRat 1 2)),
          ("xmin", .num 0), ("ymin", .num 0),
          ("xmax", .num (mkRat 1 2)), ("ymax", .num (mkRat 1 2))]])]

/-! ### Helper lemmas for the broadcast loop -/

lemma filter_map_fst_of_open (peers : Registry) (A : String)
    (hopen : ∀ p ∈ peers, p.2 = true) :
    (peers.filter fun p => decide (p.1 ≠ A) && p.2).map Prod.fst
      = (peers.map Prod.fst).filter fun x => decide (x ≠ A) := by
  induction peers with
  | nil => rfl
  | cons p ps ih =>
    have hp : p.2 = true := hopen p (List.mem_cons_self _ _)
    have ih' := ih fun q hq => hopen q (List.mem_cons_of_mem _ hq)
    by_cases h : p.1 = A
    · have h1 : ((p :: ps).filter fun q => decide (q.1 ≠ A) && q.2)
          = ps.filter fun q => decide (q.1 ≠ A) && q.2 := by
        simp [List.filter_cons, h]
      have h2 : ((p.1 :: ps.map Prod.fst).filter fun x => decide (x ≠ A))
          = (ps.map Prod.fst).filter fun x => decide (x ≠ A) := by
        simp [List.filter_cons, h]
      rw [List.map_cons, h1, h2, ih']
    · have h1 : ((p :: ps).filter fun q => decide (q.1 ≠ A) && q.2)
          = p :: (ps.filter fun q => decide (q.1 ≠ A) && q.2) := by
        simp [List.filter_cons, h, hp]
      have h2 : ((p.1 :: ps.map Prod.fst).filter fun x => decide (x ≠ A))
          = p.1 :: ((ps.map Prod.fst).filter fun x => decide (x ≠ A)) := by
        simp [List.filter_cons, h]
      rw [List.map_cons, h1, h2, List.map_cons, ih']

lemma length_filter_ne (l : List String) (a : String) (hnd : l.Nodup) (ha : a ∈ l) :
    (l.filter fun x => decide (x ≠ a)).length = l.length - 1 := by
  induction l with
  | nil => cases ha
  | cons b bs ih =>
    rcases List.nodup_cons.mp hnd with ⟨hb, hnd'⟩
    by_cases h : b = a
    · subst h
      have hfe : bs.filter (fun x => decide (x ≠ b)) = bs := by
        apply List.filter_eq_self.mpr
        intro x hx
        have hxb : x ≠ b := fun hxa => hb (hxa ▸ hx)
        simp [hxb]
      have hdrop : ((b :: bs).filter fun x => decide (x ≠ b))
          = bs.filter fun x => decide (x ≠ b) := by
        simp [List.filter_cons]
      rw [hdrop, hfe, List.length_cons]
      simp
    · have ha' : a ∈ bs := by
        rcases List.mem_cons.mp ha with h' | h'
        · exact absurd h'.symm h
        · exact h'
      have hpos : 0 < bs.length := List.length_pos.mpr (List.ne_nil_of_mem ha')
      have hlen := ih hnd' ha'
      have hkeep : ((b :: bs).filter fun x => decide (x ≠ a))
          = b :: (bs.filter fun x => decide (x ≠ a)) := by
        simp [List.filter_cons, h]
      rw [hkeep, List.length_cons, hlen, List.length_cons]
      omega

lemma not_mem_filter_ne (l : List String) (a : String) :
    a ∉ l.filter fun x => decide (x ≠ a) := by
  intro h
  have := List.of_mem_filter h
  simp at this

lemma forwarded_from (peerId : String) (data : JSValue) (now : ℚ) :
    (forwardedEnvelope peerId data now).getField "from" = some (.str peerId) := by
  unfold forwardedEnvelope
  cases h : data.getField "type" <;> simp [h, JSValue.getField, lookupField]

/-- C1: in a registry of open sockets, an inbound non-detection envelope (or a
detection envelope with valid payload) from peer A is delivered to exactly
the peers other than A — never back to A — and every delivered copy carries
`from` equal to A's server-assigned identity, whatever `from` the sender
supplied. -/
theorem relay_broadcast_exact (peers : Registry) (A : String) (data : JSValue) (now : ℚ)
    (hopen : ∀ p ∈ peers, p.2 = true)
    (hnd : (peers.map Prod.fst).Nodup)
    (hA : A ∈ peers.map Prod.fst)
    (hok : isTypeStr data "detection" = false ∨
           validateDetectionPayload (effectivePayload data) = VResult.ok) :
    (handleParsed peers A data now).map Prod.fst
        = ((peers.map Prod.fst).filter fun x => decide (x ≠ A)) ∧
    (handleParsed peers A data now).length = peers.length - 1 ∧
    A ∉ (handleParsed peers A data now).map Prod.fst ∧
    ∀ d ∈ handleParsed peers A data now,
      d.2.getField "from" = some (JSValue.str A) := by
  have hbd : handleParsed peers A data now
      = broadcastDeliveries peers A (forwardedEnvelope A data now) := by
    unfold handleParsed
    rcases hok with h | h
    · simp [h]
    · by_cases ht : isTypeStr data "detection" <;> simp [ht, h]
  have hmap : (handleParsed peers A data now).map Prod.fst
      = ((peers.map Prod.fst).filter fun x => decide (x ≠ A)) := by
    rw [hbd]
    unfold broadcastDeliveries
    rw [List.map_map]
    exact filter_map_fst_of_open peers A hopen
  refine ⟨hmap, ?_, ?_, ?_⟩
  · have : (handleParsed peers A data now).length
        = ((handleParsed peers A data now).map Prod.fst).length := by
      simp
    rw [this, hmap, length_filter_ne _ _ hnd hA]
    simp
  · rw [hmap]; exact not_mem_filter_ne _ _
  · intro d hd
    rw [hbd] at hd
    unfold broadcastDeliveries at hd
    rcases List.mem_map.mp hd with ⟨p, -, rfl⟩
    exact forwarded_from A data now

/-- Witness for C1 at a three-peer registry and a chat message whose sender
spoofed `from` as "z". -/
theorem relay_broadcast_exact_witness :
    (handleParsed regW "a" dataW 0).map Prod.fst
        = ((regW.map Prod.fst).filter fun x => decide (x ≠ "a")) ∧
    (handleParsed regW "a" dataW 0).length = regW.length - 1 ∧
    "a" ∉ (handleParsed regW "a" dataW 0).map Prod.fst ∧
    ∀ d ∈ handleParsed regW "a" dataW 0,
      d.2.getField "from" = some (JSValue.str "a") :=
  relay_broadcast_exact regW "a" dataW 0 (by decide) (by decide) (by decide)
    (Or.inl (by rfl))

/-- C2: an inbound detection envelope whose payload the validator rejects is
answered with an `error` envelope (machine-readable code and reason) sent to
the sender only; nothing is broadcast to any other peer. -/
theorem invalid_detection_unicast_only (peers : Registry) (A : String) (data : JSValue)
    (now : ℚ) (r : String)
    (hdet : isTypeStr data "detection" = true)
    (hrej : validateDetectionPayload (effectivePayload data) = VResult.rejected r) :
    handleParsed peers A data now = [(A, errorEnvelope r)] := by
  unfold handleParsed
  simp [hdet, hrej]

/-- Witness for C2: a detection payload with score 3/2 is bounced back to the
sender with the reason naming the offending field and index, and no other
peer receives it. -/
theorem invalid_detection_unicast_only_witness :
    handleParsed regW "a" dataBadW 0
      = [("a", errorEnvelope "detection[0].score must be a number in [0,1]")] :=
  invalid_detection_unicast_only regW "a" dataBadW 0
    "detection[0].score must be a number in [0,1]" rfl rfl

/-! ### The validator against the shape rules -/

lemma checkCoords_eq_none_iff (d : JSValue) (i : Nat) (ks : List String) :
    checkCoords d i ks = none ↔ ∀ k ∈ ks, inUnitB d k = true := by
  induction ks with
  | nil => simp [checkCoords]
  | cons k ks ih =>
    simp only [checkCoords, List.mem_cons, forall_eq_or_imp]
    cases h : numField d k with
    | none => simp [inUnitB, h]
    | some q =>
      by_cases hq : q < 0 ∨ 1 < q
      · have hu : inUnitB d k = false := by
          rcases hq with hq | hq
          · simp [inUnitB, h, not_le.mpr hq]
          · simp [inUnitB, h, not_le.mpr hq]
        simp [hq, hu]
      · push_neg at hq
        have hu : inUnitB d k = true := by
          simp [inUnitB, h, hq.1, hq.2]
        have hq' : ¬(q < 0 ∨ 1 < q) := by
          push_neg
          exact hq
        simp [hq', hu, ih]

lemma validDetectionB_components (d : JSValue) (h : validDetectionB d = true) :
    d.isObjLike = true ∧ isStrField d "label" = true ∧ inUnitB d "score" = true ∧
    inUnitB d "xmin" = true ∧ inUnitB d "ymin" = true ∧ inUnitB d "xmax" = true ∧
    inUnitB d "ymax" = true ∧
    (numField d "xmin").getD 0 < (numField d "xmax").getD 0 ∧
    (numField d "ymin").getD 0 < (numField d "ymax").getD 0 := by
  unfold validDetectionB at h
  simp only [Bool.and_eq_true, decide_eq_true_eq] at h
  tauto

lemma inUnitB_elim (d : JSValue) (k : String) (h : inUnitB d k = true) :
    ∃ q : ℚ, numField d k = some q ∧ 0 ≤ q ∧ q ≤ 1 := by
  unfold inUnitB at h
  cases hn : numField d k with
  | none => rw [hn] at h; cases h
  | some q =>
    rw [hn] at h
    simp only [Bool.and_eq_true, decide_eq_true_eq] at h
    exact ⟨q, rfl, h.1, h.2⟩

lemma validateOne_eq_none_iff (d : JSValue) (i : Nat) :
    validateOne d i = none ↔ validDetectionB d = true := by
  constructor
  · intro h
    unfold validateOne at h
    by_cases hobj : d.isObjLike = false
    · rw [if_pos hobj] at h; cases h
    · rw [if_neg hobj] at h
      have hobj' : d.isObjLike = true := by
        revert hobj; cases d.isObjLike <;> simp
      by_cases hlab : isStrField d "label" = false
      · rw [if_pos hlab] at h; cases h
      · rw [if_neg hlab] at h
        have hlab' : isStrField d "label" = true := by
          revert hlab; cases isStrField d "label" <;> simp
        cases hsc : numField d "score" with
        | none => rw [hsc] at h; cases h
        | some q =>
          simp only [hsc] at h
          by_cases hq : q < 0 ∨ 1 < q
          · rw [if_pos hq] at h; cases h
          · rw [if_neg hq] at h
            push_neg at hq
            have hsc' : inUnitB d "score" = true := by
              simp [inUnitB, hsc, hq.1, hq.2]
            cases hcc : checkCoords d i boxKeys with
            | some r => simp only [hcc] at h; cases h
            | none =>
              simp only [hcc] at h
              by_cases hb : (numField d "xmin").getD 0 < (numField d "xmax").getD 0 ∧
                            (numField d "ymin").getD 0 < (numField d "ymax").getD 0
              · have h4 := (checkCoords_eq_none_iff d i boxKeys).mp hcc
                have hx1 := h4 "xmin" (by simp [boxKeys])
                have hy1 := h4 "ymin" (by simp [boxKeys])
                have hx2 := h4 "xmax" (by simp [boxKeys])
                have hy2 := h4 "ymax" (by simp [boxKeys])
                unfold validDetectionB
                simp [hobj', hlab', hsc', hx1, hy1, hx2, hy2, hb.1, hb.2]
              · rw [if_neg hb] at h; cases h
  · intro h
    obtain ⟨hobj, hlab, hsco, hx1, hy1, hx2, hy2, hbx, hby⟩ := validDetectionB_components d h
    obtain ⟨q, hsc, hq0, hq1⟩ := inUnitB_elim d "score" hsco
    have hqn : ¬(q < 0 ∨ 1 < q) := by
      push_neg
      exact ⟨hq0, hq1⟩
    have hcc : checkCoords d i boxKeys = none := by
      apply (checkCoords_eq_none_iff d i boxKeys).mpr
      intro k hk
      simp only [boxKeys, List.mem_cons, List.not_mem_nil, or_false] at hk
      rcases hk with rfl | rfl | rfl | rfl
      · exact hx1
      · exact hy1
      · exact hx2
      · exact hy2
    unfold validateOne
    simp [hobj, hlab, hsc, hqn, hcc, hbx, hby]

lemma validateDetections_ok_iff (ds : List JSValue) (i : Nat) :
    validateDetections ds i = VResult.ok ↔ ds.all validDetectionB = true := by
  induction ds generalizing i with
  | nil => simp [validateDetections]
  | cons d rest ih =>
    simp only [validateDetections, List.all_cons, Bool.and_eq_true]
    cases h : validateOne d i with
    | some r =>
      have hd : validDetectionB d ≠ true := by
        intro hc
        rw [(validateOne_eq_none_iff d i).mpr hc] at h
        cases h
      constructor
      · intro hc; cases hc
      · intro hc; exact absurd hc.1 hd
    | none =>
      have hd : validDetectionB d = true := (validateOne_eq_none_iff d i).mp h
      simp [hd, ih]

/-- C3 counterexample: the source validator does not require labels to be
non-empty — a payload whose single detection carries the empty string as its
label is accepted as ok, where the claim requires rejection at the
label rule. -/
theorem empty_label_accepted : validateDetectionPayload pEmptyLabel = VResult.ok := by
  rfl

/-- C3 (amended): the validator applies the claimed rules in order with
short-circuiting, except that the label rule only requires the label to be
text — emptiness is not checked.  Stated as: acceptance coincides with the
conjunction of the shape rules (label possibly empty, empty detections list
accepted), and a payload missing its frame identifier is rejected for that
reason before `detections` is inspected. -/
theorem validator_matches_shape_rules (p : JSValue) :
    (validateDetectionPayload p = VResult.ok ↔ validPayloadB p = true) ∧
    (p.isObjLike = true → p.getField "frame_id" = none →
      validateDetectionPayload p = VResult.rejected "missing frame_id") := by
  constructor
  · unfold validateDetectionPayload validPayloadB
    cases hobj : p.isObjLike
    · simp
    · simp only [Bool.true_eq_false, if_false, Bool.true_and]
      cases hf : p.getField "frame_id" with
      | none => simp [hf]
      | some v =>
        simp only [hf, Option.isNone_some, Option.isSome_some, Bool.true_and, if_false]
        cases hc : numField p "capture_ts" with
        | none => simp [hc]
        | some qc =>
          simp only [hc, Option.isNone_some, Option.isSome_some, Bool.true_and, if_false]
          cases hi : numField p "inference_ts" with
          | none => simp [hi]
          | some qi =>
            simp only [hi, Option.isNone_some, Option.isSome_some, Bool.true_and, if_false]
            cases hd : p.getField "detections" with
            | none => simp [hd]
            | some v =>
              cases v with
              | arr ds => simp [hd, validateDetections_ok_iff]
              | null => simp [hd]
              | bool b => simp [hd]
              | num q => simp [hd]
              | str s => simp [hd]
              | obj fs => simp [hd]
  · intro h1 h2
    unfold validateDetectionPayload
    rw [if_neg (by simp [h1]), if_pos (by simp [h2])]

/-- Witness for C3 (amended): a payload that is an object but lacks
`frame_id` is rejected with the frame-identifier reason. -/
theorem validator_matches_shape_rules_witness :
    validateDetectionPayload (JSValue.obj [("x", JSValue.num 1)])
      = VResult.rejected "missing frame_id" :=
  (validator_matches_shape_rules (JSValue.obj [("x", JSValue.num 1)])).2 rfl rfl

/-! ### Handshake-signal relay: inputs for witnesses and counterexamples -/

/-- `message.payload !== undefined ? message.payload : message.data` in the
signal branch. -/
def signalSource (message : JSValue) : Option JSValue :=
  match message.getField "payload" with
  | some p => some p
  | none => message.getField "data"

/-- A client that received its id but has not created the peer-link yet. -/
def stNoPeer : PeerState :=
  { clientId := some (.str "me"), peer := false, pendingSignal := none }

/-- A client whose peer-link object exists. -/
def stWithPeer : PeerState :=
  { clientId := some (.str "me"), peer := true, pendingSignal := none }

/-- A payload carrying none of the sdp/type/candidate/renegotiate keys. -/
def fooPayload : JSValue := .obj [("foo", .num 1)]

/-- A relayed handshake-signal envelope wrapping `fooPayload`. -/
def fooSignalMsg : JSValue :=
  .obj [("type", .str "signal"), ("from", .str "other"), ("payload", fooPayload)]

/-- A well-shaped offer payload. -/
def offerPayload : JSValue :=
  .obj [("type", .str "offer"), ("sdp", .str "v=0")]

/-- A relayed handshake-signal envelope wrapping `offerPayload`. -/
def offerSignalMsg : JSValue :=
  .obj [("type", .str "signal"), ("from", .str "other"), ("payload", offerPayload)]

/-- C6 counterexample: a handshake-signal payload lacking all of the
sdp/type/candidate(/renegotiate) keys that arrives before the peer-link
object exists is buffered unvalidated, and creating the peer-link passes it
into the signal-application method. -/
theorem pending_invalid_signal_applied :
    isValidSignal (some fooPayload) = false ∧
    (clientHandleMessage stNoPeer fooSignalMsg).2 = [] ∧
    (createPeer ((clientHandleMessage stNoPeer fooSignalMsg).1)).2
      = [PEffect.applySignal fooPayload] :=
  ⟨rfl, rfl, rfl⟩

/-- C6 (amended): when the peer-link object already exists, a handshake-signal
envelope whose unwrapped payload lacks all of the sdp/type/candidate/
renegotiate keys is discarded: no signal-application call is made and the
state (including the pending-signal buffer) is unchanged.  A payload buffered
before the peer-link exists, however, is applied unvalidated on creation. -/
theorem invalid_signal_discarded_with_peer (st : PeerState) (msg : JSValue)
    (hpeer : st.peer = true)
    (htype : msg.getField "type" = some (JSValue.str "signal"))
    (hinv : isValidSignal (unwrapSignal (signalSource msg)) = false) :
    clientHandleMessage st msg = (st, []) := by
  have hid : isTypeStr msg "id" = false := by simp [isTypeStr, htype]
  have hsig : isTypeStr msg "signal" = true := by simp [isTypeStr, htype]
  have hsrc : (match msg.getField "payload" with
      | some p => some p
      | none => msg.getField "data") = signalSource msg := rfl
  by_cases hfrom : strictEqOpt (msg.getField "from") st.clientId
  · simp [clientHandleMessage, hid, hsig, hfrom]
  · by_cases htr : truthyOpt (unwrapSignal (signalSource msg)) = false
    · simp [clientHandleMessage, hid, hsig, hfrom, hsrc, htr]
    · simp [clientHandleMessage, hid, hsig, hfrom, hsrc, htr, hpeer, hinv]

/-- Witness for C6 (amended): with the peer-link present, the payload
lacking all handshake keys is dropped without touching the state. -/
theorem invalid_signal_discarded_with_peer_witness :
    clientHandleMessage stWithPeer fooSignalMsg = (stWithPeer, []) :=
  invalid_signal_discarded_with_peer stWithPeer fooSignalMsg rfl rfl rfl

/-- C7: a handshake-signal arriving before the peer-link object exists is
buffered (last one wins) with no immediate signal-application call; creating
the peer-link applies the buffered payload exactly once and clears the
buffer, and a repeated creation call applies nothing further. -/
theorem pending_signal_applied_once (st : PeerState) (msg p : JSValue)
    (hpeer : st.peer = false)
    (htype : msg.getField "type" = some (JSValue.str "signal"))
    (hfrom : strictEqOpt (msg.getField "from") st.clientId = false)
    (hun : unwrapSignal (signalSource msg) = some p)
    (htr : p.truthy = true) :
    (clientHandleMessage st msg).2 = [] ∧
    ((clientHandleMessage st msg).1).pendingSignal = some p ∧
    (createPeer ((clientHandleMessage st msg).1)).2 = [PEffect.applySignal p] ∧
    ((createPeer ((clientHandleMessage st msg).1)).1).pendingSignal = none ∧
    (createPeer ((createPeer ((clientHandleMessage st msg).1)).1)).2 = [] := by
  have hid : isTypeStr msg "id" = false := by simp [isTypeStr, htype]
  have hsig : isTypeStr msg "signal" = true := by simp [isTypeStr, htype]
  have hsrc : (match msg.getField "payload" with
      | some p => some p
      | none => msg.getField "data") = signalSource msg := rfl
  have hntr : ¬(truthyOpt (unwrapSignal (signalSource msg)) = false) := by
    rw [hun]
    simp [truthyOpt, htr]
  have hmsg : clientHandleMessage st msg = ({ st with pendingSignal := some p }, []) := by
    simp [clientHandleMessage, hid, hsig, hfrom, hsrc, hntr, hpeer, hun, truthyOpt, htr]
  have hcp : createPeer { st with pendingSignal := some p }
      = ({ st with peer := true, pendingSignal := none }, [PEffect.applySignal p]) := by
    simp [createPeer, hpeer, htr]
  have hcp2 : createPeer { st with peer := true, pendingSignal := none }
      = ({ st with peer := true, pendingSignal := none }, []) := by
    simp [createPeer]
  rw [hmsg]
  refine ⟨rfl, rfl, ?_, ?_, ?_⟩ <;> simp [hcp, hcp2]

/-- Witness for C7: an offer payload arriving before the peer-link exists is
buffered and applied exactly once on creation. -/
theorem pending_signal_applied_once_witness :
    (clientHandleMessage stNoPeer offerSignalMsg).2 = [] ∧
    ((clientHandleMessage stNoPeer offerSignalMsg).1).pendingSignal = some offerPayload ∧
    (createPeer ((clientHandleMessage stNoPeer offerSignalMsg).1)).2
      = [PEffect.applySignal offerPayload] ∧
    ((createPeer ((clientHandleMessage stNoPeer offerSignalMsg).1)).1).pendingSignal = none ∧
    (createPeer ((createPeer ((clientHandleMessage stNoPeer offerSignalMsg).1)).1)).2 = [] :=
  pending_signal_applied_once stNoPeer offerSignalMsg offerPayload rfl rfl rfl rfl rfl

/-! ### Connection lifecycle theorems -/

/-- The state after: fresh handler, connect, socket opened, first transport
loss handled (attempt counter 1, reconnect scheduled), and the scheduled
`establishConnection` having opened a new socket that has not fired `onopen`. -/
def sReconnecting : HandlerState :=
  (establishConnection ((handleDisconnect (onOpen ((connect initialHandler "ws://s").1))).1)).1

/-- C4: evaluation of the reconnection code on the failing scenario.  After a
connected client loses its transport once, the handler schedules exactly one
reconnect after the base delay (2000 ms); when the reconnect socket then
fails in turn, the resulting close event is ignored — no second attempt is
ever scheduled and the counter never advances toward the maximum; and after
an explicit `disconnect()` pins the counter at the maximum, a new
`connect(address)` call produces no socket at all. -/
theorem reconnect_code_eval :
    (handleDisconnect (onOpen ((connect initialHandler "ws://s").1))).2
        = [WEffect.scheduleReconnect 2000] ∧
    sReconnecting.reconnectAttempts = 1 ∧
    sReconnecting.maxReconnectAttempts = 5 ∧
    handleDisconnect sReconnecting = (sReconnecting, []) ∧
    (connect ((disconnect sReconnecting).1) "ws://s").2 = [] :=
  ⟨rfl, rfl, rfl, rfl, rfl⟩

lemma disconnect_attempts_pinned (s : HandlerState) :
    ((disconnect s).1).reconnectAttempts = s.maxReconnectAttempts ∧
    ((disconnect s).1).maxReconnectAttempts = s.maxReconnectAttempts := by
  unfold disconnect
  by_cases hp : s.peer <;> by_cases hw : s.ws <;> simp [hp, hw]

/-- C5: after an explicit `disconnect()`, the attempt counter is pinned at the
maximum, so any number of already-scheduled backoff timers firing afterwards
runs `establishConnection` into its guard: no socket is ever opened and the
state never changes. -/
theorem disconnect_suppresses_reconnect (s : HandlerState) (n : Nat) :
    runTimers ((disconnect s).1) n = (((disconnect s).1), []) := by
  obtain ⟨h1, h2⟩ := disconnect_attempts_pinned s
  have hfix : establishConnection ((disconnect s).1) = ((disconnect s).1, []) := by
    unfold establishConnection
    rw [if_pos]
    exact Or.inr (by rw [h1, h2])
  induction n with
  | zero => rfl
  | succ n ih => simp [runTimers, hfix, ih]

/-- C10: when the transport emits both an error and a close event for one
loss, the first `handleDisconnect` call clears the connected flag, increments
the attempt counter once and schedules at most one backoff timer (exactly one
while under the maximum); the second call returns immediately, leaving the
state untouched and scheduling nothing. -/
theorem double_disconnect_single_retry (s : HandlerState) (h : s.connected = true) :
    ((handleDisconnect s).1).reconnectAttempts = s.reconnectAttempts + 1 ∧
    handleDisconnect ((handleDisconnect s).1) = ((handleDisconnect s).1, []) ∧
    (s.reconnectAttempts + 1 < s.maxReconnectAttempts →
      (handleDisconnect s).2
        = [WEffect.scheduleReconnect (s.reconnectDelay * 2 ^ s.reconnectAttempts)]) ∧
    (s.maxReconnectAttempts ≤ s.reconnectAttempts + 1 → (handleDisconnect s).2 = []) := by
  have hc : ¬(s.connected = false) := by simp [h]
  by_cases hlt : s.reconnectAttempts + 1 < s.maxReconnectAttempts
  · have h1 : handleDisconnect s
        = ({ s with connected := false, reconnectAttempts := s.reconnectAttempts + 1,
                    pingActive := false },
           [WEffect.scheduleReconnect (s.reconnectDelay * 2 ^ s.reconnectAttempts)]) := by
      unfold handleDisconnect
      rw [if_neg hc, if_pos (by simpa using hlt)]
      simp
    rw [h1]
    refine ⟨rfl, by simp [handleDisconnect], fun _ => rfl, fun hle => absurd hlt (by omega)⟩
  · have h1 : handleDisconnect s
        = ({ s with connected := false, reconnectAttempts := s.reconnectAttempts + 1,
                    pingActive := false }, []) := by
      unfold handleDisconnect
      rw [if_neg hc, if_neg (by simpa using hlt)]
    rw [h1]
    refine ⟨rfl, by simp [handleDisconnect], fun hlt2 => absurd hlt2 hlt, fun _ => rfl⟩

/-- Witness for C10 at a freshly-opened handler: the double invocation
increments once, the second call is a no-op, and exactly one timer (2000 ms)
is scheduled. -/
theorem double_disconnect_single_retry_witness :
    ((handleDisconnect (onOpen initialHandler)).1).reconnectAttempts
        = (onOpen initialHandler).reconnectAttempts + 1 ∧
    handleDisconnect ((handleDisconnect (onOpen initialHandler)).1)
        = ((handleDisconnect (onOpen initialHandler)).1, []) ∧
    ((onOpen initialHandler).reconnectAttempts + 1
        < (onOpen initialHandler).maxReconnectAttempts →
      (handleDisconnect (onOpen initialHandler)).2
        = [WEffect.scheduleReconnect ((onOpen initialHandler).reconnectDelay
            * 2 ^ (onOpen initialHandler).reconnectAttempts)]) ∧
    ((onOpen initialHandler).maxReconnectAttempts
        ≤ (onOpen initialHandler).reconnectAttempts + 1 →
      (handleDisconnect (onOpen initialHandler)).2 = []) :=
  double_disconnect_single_retry (onOpen initialHandler) rfl

/-! ### Capture/Backpressure theorems -/

/-- C8 counterexample: at a tick with the previous inference result still
outstanding, the server-inference loop still performs the frame capture (the
canvas draw and JPEG encode precede the in-flight check); only the send is
skipped. -/
theorem inflight_tick_still_captures :
    (sendFrame false true true).1
      = [CapAction.capture, CapAction.scheduleNext, CapAction.scheduleNext] ∧
    CapAction.capture ∈ (sendFrame false true true).1 ∧
    CapAction.post ∉ (sendFrame false true true).1 := by
  decide

/-- C8 (amended): at every tick with the previous result still outstanding,
no send happens and the frame is not queued — the in-flight flag is left set
and nothing is retained for a later tick — although the capture itself still
runs when the video is ready. -/
theorem inflight_tick_skips_send (stopped videoReady : Bool) :
    CapAction.post ∉ (sendFrame stopped videoReady true).1 ∧
    (sendFrame stopped videoReady true).2 = true := by
  cases stopped <;> cases videoReady <;> decide

/-! ### Peer registry identity theorems -/

/-- C9 counterexample: the accept handler registers the freshly drawn token
with no uniqueness check, so when the random source repeats a token while the
first socket is still open, the same identity is assigned to a second live
socket and the registry entry for the first socket is silently overwritten:
two live sockets, one identity, and no entry maps to the first socket. -/
theorem duplicate_token_overwrites :
    acceptConn (acceptConn [] "a" 1) "a" 2 = [("a", 2)] ∧
    ∀ e ∈ acceptConn (acceptConn [] "a" 1) "a" 2, e.2 ≠ 1 := by
  decide

/-- C9 (amended): identity uniqueness holds only conditionally on the random
source: provided the drawn token differs from every currently-registered
identity, registration appends a fresh entry, every existing entry is kept,
and the registry keys remain pairwise distinct; the code itself never checks
this. -/
theorem fresh_token_keeps_registry_unique (m : List (String × Nat)) (t : String) (s : Nat)
    (hfresh : (m.map Prod.fst).contains t = false)
    (hnd : (m.map Prod.fst).Nodup) :
    acceptConn m t s = m ++ [(t, s)] ∧
    ((acceptConn m t s).map Prod.fst).Nodup := by
  have happ : acceptConn m t s = m ++ [(t, s)] := by
    unfold acceptConn mapSet
    rw [hfresh]
    simp
  refine ⟨happ, ?_⟩
  rw [happ]
  have hniel : t ∉ m.map Prod.fst := by
    intro hmem
    have hc : (m.map Prod.fst).contains t = true := by
      simpa using hmem
    rw [hc] at hfresh
    cases hfresh
  rw [List.map_append]
  rw [List.nodup_append]
  refine ⟨hnd, by simp, ?_⟩
  intro x hx
  simp only [List.map_cons, List.map_nil, List.mem_singleton]
  intro hxt
  exact hniel (hxt ▸ hx)

/-- Witness for C9 (amended): a fresh token "b" joins a registry holding "a"
without disturbing it, and the identities stay distinct. -/
theorem fresh_token_keeps_registry_unique_witness :
    acceptConn [("a", 1)] "b" 2 = [("a", 1), ("b", 2)] ∧
    (((acceptConn [("a", 1)] "b" 2).map Prod.fst).Nodup) :=
  fresh_token_keeps_registry_unique [("a", 1)] "b" 2 rfl (by decide)

end Heimdall
